import Mathlib

/-!
Shallow embedding of the volatility event-detection and aggregation core of
`volatility_report.py` (functions `process_data` and `analyze_volatility`).

Numeric values flowing through the pipeline are IEEE doubles.  We model them
exactly: a finite double is carried as a rational number, and the special
values NaN, positive infinity and negative infinity are explicit
constructors, with comparison, negation and absolute value following the
IEEE rules (every comparison involving NaN is false; infinities compare in
the usual extended way).  The exceptional values matter because pandas
`pct_change` divides by the reference close, producing an infinity when the
reference close is zero and the current close is not, and NaN when both are
zero or when the position is within the first `periods` positions.
-/

/-- Model of an IEEE double produced by the pipeline arithmetic: either a
finite value (carried exactly as a rational) or one of the special values
NaN, positive infinity, negative infinity. -/
inductive PFloat where
  | nan : PFloat
  | inf : PFloat
  | ninf : PFloat
  | num : ℚ → PFloat
  deriving DecidableEq, Repr

/-- IEEE `less-or-equal` on modelled doubles; any comparison with NaN is
false. -/
def PFloat.leb : PFloat → PFloat → Bool
  | .nan, _ => false
  | _, .nan => false
  | .ninf, _ => true
  | _, .inf => true
  | .inf, _ => false
  | .num _, .ninf => false
  | .num a, .num b => decide (a ≤ b)

/-- IEEE `strictly-less` on modelled doubles; any comparison with NaN is
false. -/
def PFloat.ltb : PFloat → PFloat → Bool
  | .nan, _ => false
  | _, .nan => false
  | .inf, _ => false
  | _, .ninf => false
  | .ninf, _ => true
  | .num _, .inf => true
  | .num a, .num b => decide (a < b)

/-- IEEE `greater-or-equal`, as used by the pandas comparison `>=`. -/
def PFloat.geb (a b : PFloat) : Bool := b.leb a

/-- IEEE `strictly-greater`, as used by the pandas comparison `>`. -/
def PFloat.gtb (a b : PFloat) : Bool := b.ltb a

/-- IEEE negation (`-x`); negation of NaN is NaN. -/
def PFloat.neg : PFloat → PFloat
  | .nan => .nan
  | .inf => .ninf
  | .ninf => .inf
  | .num a => .num (-a)

/-- IEEE absolute value, as used by the pandas `.abs()` call. -/
def PFloat.abs : PFloat → PFloat
  | .nan => .nan
  | .inf => .inf
  | .ninf => .inf
  | .num a => .num |a|

/-- One magnitude bucket of `analyze_volatility`: lower bound (a finite
float in the source), upper bound (a float, `float(1/0)` for the last
bucket) and display label. -/
structure Bucket where
  low : ℚ
  high : PFloat
  label : String
  deriving DecidableEq, Repr

/-- The fixed bucket table declared inside `analyze_volatility`
(`volatility_report.py`, lines 127 to 136), in declaration order. -/
def buckets : List Bucket :=
  [ ⟨5/1000, .num (6/1000), "0.5% - 0.6%"⟩,
    ⟨6/1000, .num (7/1000), "0.6% - 0.7%"⟩,
    ⟨7/1000, .num (8/1000), "0.7% - 0.8%"⟩,
    ⟨8/1000, .num (9/1000), "0.8% - 0.9%"⟩,
    ⟨9/1000, .num (10/1000), "0.9% - 1.0%"⟩,
    ⟨10/1000, .num (15/1000), "1.0% - 1.5%"⟩,
    ⟨15/1000, .num (20/1000), "1.5% - 2.0%"⟩,
    ⟨20/1000, .inf, "> 2.0%"⟩ ]

/-- One output row of `analyze_volatility`: the dict
`{"Bucket": label, "Pumps": len(pumps), "Dumps": len(dumps)}`. -/
structure BucketCount where
  bucket : String
  pumps : ℕ
  dumps : ℕ
  deriving DecidableEq, Repr

/-- The event filter `df[window_col].abs() >= 0.005` applied to one value of
the return column. -/
def eventB (v : PFloat) : Bool := v.abs.geb (.num (5/1000))

/-- The pump filter of `analyze_volatility` applied to one value:
`(events[window_col] >= low) & (events[window_col] < high)`. -/
def pumpB (b : Bucket) (v : PFloat) : Bool :=
  v.geb (.num b.low) && v.ltb b.high

/-- The dump filter of `analyze_volatility` applied to one value:
`(events[window_col] <= -low) & (events[window_col] > -high)`. -/
def dumpB (b : Bucket) (v : PFloat) : Bool :=
  v.leb (PFloat.num b.low).neg && v.gtb b.high.neg

/-- Embedding of `analyze_volatility` (lines 113 to 152).  The DataFrame is
a list of rows of an arbitrary type, and `col` reads the selected return
column `window_col` out of a row.  The function filters the frame down to
events, returns the empty list when no event exists, and otherwise emits
one `BucketCount` row per declared bucket, in declaration order. -/
def analyze_volatility {ρ : Type} (df : List ρ) (col : ρ → PFloat) : List BucketCount :=
  let events := df.filter (fun r => eventB (col r))
  if events.isEmpty then []
  else
    buckets.map (fun b =>
      { bucket := b.label
        pumps := (events.filter (fun r => pumpB b (col r))).length
        dumps := (events.filter (fun r => dumpB b (col r))).length })

/-- Total pump count of a result table, `sum(pump_count)` of the spec. -/
def sum_pumps (rs : List BucketCount) : ℕ := (rs.map BucketCount.pumps).sum

/-- Total dump count of a result table, `sum(dump_count)` of the spec. -/
def sum_dumps (rs : List BucketCount) : ℕ := (rs.map BucketCount.dumps).sum

/-- One raw candle record as consumed by the core: the Unix timestamp in
seconds (the `time` field) and the closing price (the `close` field).  The
other OHLC fields are passed through unused by the core. -/
structure Candle where
  time : ℤ
  close : ℚ
  deriving DecidableEq, Repr

/-- Ordering of candles by timestamp, the key used by the set_index and
sort_index calls of `process_data` (the datetime conversion of the integer
`time` field is strictly monotone, so sorting by the datetime index is
sorting by `time`). -/
def candle_le (a b : Candle) : Prop := a.time ≤ b.time

instance : DecidableRel candle_le := fun a b => inferInstanceAs (Decidable (a.time ≤ b.time))

instance : IsTotal Candle candle_le := ⟨fun a b => Int.le_total a.time b.time⟩

instance : IsTrans Candle candle_le := ⟨fun _ _ _ h1 h2 => le_trans h1 h2⟩

/-- The bars-per-minute factor chosen by `process_data` (lines 97 to 102):
1 for resolution "1m", 60 for "1s", and the default fallback 1 for any
other string. -/
def factorOf (resolution : String) : ℕ :=
  if resolution = "1m" then 1
  else if resolution = "1s" then 60
  else 1

/-- The value of `close[i] / close[i - periods] - 1` under IEEE arithmetic
for finite operands: a finite rational when the reference close is nonzero,
and the IEEE result of division by zero otherwise (NaN for `0/0`, an
infinity with the sign of the numerator otherwise). -/
def ret1 (cur prev : ℚ) : PFloat :=
  if prev = 0 then
    (if cur = 0 then .nan else if 0 < cur then .inf else .ninf)
  else .num ((cur - prev) / prev)

/-- Embedding of `Series.pct_change(periods)` as called on the close column:
position `i` is NaN for `i < periods` and otherwise the IEEE value of
`close[i] / close[i - periods] - 1`. -/
def pct_change (periods : ℕ) (closes : List ℚ) : List PFloat :=
  (List.range closes.length).map fun i =>
    if i < periods then .nan
    else ret1 (closes.getD i 0) (closes.getD (i - periods) 0)

/-- The DataFrame returned by `process_data`: the candle rows indexed and
sorted by timestamp, plus the three derived return columns. -/
structure DF where
  rows : List Candle
  ret_5m : List PFloat
  ret_10m : List PFloat
  ret_15m : List PFloat
  deriving DecidableEq, Repr

/-- Embedding of the data-shaping part of `process_data` (lines 81 to 111):
`None` for an empty candle collection, otherwise the frame sorted ascending
by timestamp with the columns `ret_5m`, `ret_10m`, `ret_15m` computed by
`pct_change` over 5, 10 and 15 minutes scaled by the resolution factor.
The fetch loop (lines 73 to 79) only concatenates the supplied raw records
and is represented by the `all_candles` argument itself. -/
def process_data (all_candles : List Candle) (resolution : String) : Option DF :=
  if all_candles.isEmpty then none
  else
    let factor := factorOf resolution
    let rows := List.insertionSort candle_le all_candles
    let closes := rows.map Candle.close
    some { rows := rows
           ret_5m := pct_change (5 * factor) closes
           ret_10m := pct_change (10 * factor) closes
           ret_15m := pct_change (15 * factor) closes }

/-- State-threaded variant of `analyze_volatility`, making the effect on
the input frame explicit: the pandas operations used by the function are
boolean-mask indexing (which allocates a new frame), `.copy()` (which
copies that new frame), `len` and `.empty` (reads); none of them writes to
the argument frame, so the frame is handed back unchanged alongside the
result. -/
def analyze_volatility_state {ρ : Type} (df : List ρ) (col : ρ → PFloat) :
    List BucketCount × List ρ :=
  let events := df.filter (fun r => eventB (col r))
  if events.isEmpty then ([], df)
  else
    (buckets.map (fun b =>
      { bucket := b.label
        pumps := (events.filter (fun r => pumpB b (col r))).length
        dumps := (events.filter (fun r => dumpB b (col r))).length }), df)

/-- Double negation is the identity on modelled doubles. -/
theorem PFloat.neg_neg (a : PFloat) : a.neg.neg = a := by
  cases a <;> simp [PFloat.neg]

/-- IEEE `less-or-equal` is reversed by negating both sides. -/
theorem PFloat.leb_neg_neg (a b : PFloat) : a.neg.leb b.neg = b.leb a := by
  cases a <;> cases b <;>
    simp [PFloat.neg, PFloat.leb, decide_eq_decide, neg_le_neg_iff]

/-- IEEE `strictly-less` is reversed by negating both sides. -/
theorem PFloat.ltb_neg_neg (a b : PFloat) : a.neg.ltb b.neg = b.ltb a := by
  cases a <;> cases b <;>
    simp [PFloat.neg, PFloat.ltb, decide_eq_decide, neg_lt_neg_iff]

/-- Negation can be moved from the right argument of `leb` to the left. -/
theorem PFloat.leb_neg_right (a b : PFloat) : a.leb b.neg = b.leb a.neg := by
  have h := PFloat.leb_neg_neg a.neg b
  rwa [PFloat.neg_neg] at h

/-- Negation can be moved from the left argument of `ltb` to the right. -/
theorem PFloat.ltb_neg_left (a b : PFloat) : a.neg.ltb b = b.neg.ltb a := by
  have h := PFloat.ltb_neg_neg a b.neg
  rwa [PFloat.neg_neg] at h

/-- The dump filter of a bucket applied to a value is exactly the pump
filter of the same bucket applied to the negated value: the comparison
pair `<= -low, > -high` mirrors `>= low, < high` without any boundary
asymmetry. -/
theorem dumpB_eq_pumpB_neg (b : Bucket) (v : PFloat) :
    dumpB b v = pumpB b v.neg := by
  unfold dumpB pumpB PFloat.geb PFloat.gtb
  rw [PFloat.leb_neg_right, PFloat.ltb_neg_left]

/-- The event filter holds at a finite value exactly when its absolute
value meets the 0.005 threshold. -/
theorem eventB_num_iff (q : ℚ) : eventB (.num q) = true ↔ 5/1000 ≤ |q| := by
  simp [eventB, PFloat.abs, PFloat.geb, PFloat.leb]

/-- A finite value inside a finite bucket satisfies the pump filter. -/
theorem pumpB_num_true (lo hi : ℚ) (lab : String) (q : ℚ)
    (h1 : lo ≤ q) (h2 : q < hi) :
    pumpB ⟨lo, .num hi, lab⟩ (.num q) = true := by
  simp [pumpB, PFloat.geb, PFloat.leb, PFloat.ltb, h1, h2]

/-- A finite value meeting the lower bound satisfies the pump filter of the
unbounded final bucket. -/
theorem pumpB_inf_true (lo : ℚ) (lab : String) (q : ℚ) (h1 : lo ≤ q) :
    pumpB ⟨lo, .inf, lab⟩ (.num q) = true := by
  simp [pumpB, PFloat.geb, PFloat.leb, PFloat.ltb, h1]

/-- A finite value below the lower bound fails the pump filter. -/
theorem pumpB_false_low (lo : ℚ) (hi : PFloat) (lab : String) (q : ℚ)
    (h : q < lo) :
    pumpB ⟨lo, hi, lab⟩ (.num q) = false := by
  simp [pumpB, PFloat.geb, PFloat.leb, h.not_le]

/-- A finite value at or above a finite upper bound fails the pump
filter. -/
theorem pumpB_false_high (lo hi : ℚ) (lab : String) (q : ℚ) (h : hi ≤ q) :
    pumpB ⟨lo, .num hi, lab⟩ (.num q) = false := by
  simp [pumpB, PFloat.geb, PFloat.leb, PFloat.ltb, h.not_lt]

/-- A finite value at or above the threshold satisfies the pump filter of
exactly one declared bucket. -/
theorem pump_countP_of_ge (q : ℚ) (h : 5/1000 ≤ q) :
    buckets.countP (fun b => pumpB b (.num q)) = 1 := by
  rcases lt_or_le q (6/1000) with h1 | h1
  · have c0 := pumpB_num_true (5/1000) (6/1000) "0.5% - 0.6%" q h h1
    have c1 := pumpB_false_low (6/1000) (.num (7/1000)) "0.6% - 0.7%" q (by linarith)
    have c2 := pumpB_false_low (7/1000) (.num (8/1000)) "0.7% - 0.8%" q (by linarith)
    have c3 := pumpB_false_low (8/1000) (.num (9/1000)) "0.8% - 0.9%" q (by linarith)
    have c4 := pumpB_false_low (9/1000) (.num (10/1000)) "0.9% - 1.0%" q (by linarith)
    have c5 := pumpB_false_low (10/1000) (.num (15/1000)) "1.0% - 1.5%" q (by linarith)
    have c6 := pumpB_false_low (15/1000) (.num (20/1000)) "1.5% - 2.0%" q (by linarith)
    have c7 := pumpB_false_low (20/1000) .inf ("> 2.0%") q (by linarith)
    simp [buckets, List.countP_cons, c0, c1, c2, c3, c4, c5, c6, c7]
  rcases lt_or_le q (7/1000) with h2 | h2
  · have c0 := pumpB_false_high (5/1000) (6/1000) "0.5% - 0.6%" q (by linarith)
    have c1 := pumpB_num_true (6/1000) (7/1000) "0.6% - 0.7%" q h1 h2
    have c2 := pumpB_false_low (7/1000) (.num (8/1000)) "0.7% - 0.8%" q (by linarith)
    have c3 := pumpB_false_low (8/1000) (.num (9/1000)) "0.8% - 0.9%" q (by linarith)
    have c4 := pumpB_false_low (9/1000) (.num (10/1000)) "0.9% - 1.0%" q (by linarith)
    have c5 := pumpB_false_low (10/1000) (.num (15/1000)) "1.0% - 1.5%" q (by linarith)
    have c6 := pumpB_false_low (15/1000) (.num (20/1000)) "1.5% - 2.0%" q (by linarith)
    have c7 := pumpB_false_low (20/1000) .inf ("> 2.0%") q (by linarith)
    simp [buckets, List.countP_cons, c0, c1, c2, c3, c4, c5, c6, c7]
  rcases lt_or_le q (8/1000) with h3 | h3
  · have c0 := pumpB_false_high (5/1000) (6/1000) "0.5% - 0.6%" q (by linarith)
    have c1 := pumpB_false_high (6/1000) (7/1000) "0.6% - 0.7%" q (by linarith)
    have c2 := pumpB_num_true (7/1000) (8/1000) "0.7% - 0.8%" q h2 h3
    have c3 := pumpB_false_low (8/1000) (.num (9/1000)) "0.8% - 0.9%" q (by linarith)
    have c4 := pumpB_false_low (9/1000) (.num (10/1000)) "0.9% - 1.0%" q (by linarith)
    have c5 := pumpB_false_low (10/1000) (.num (15/1000)) "1.0% - 1.5%" q (by linarith)
    have c6 := pumpB_false_low (15/1000) (.num (20/1000)) "1.5% - 2.0%" q (by linarith)
    have c7 := pumpB_false_low (20/1000) .inf ("> 2.0%") q (by linarith)
    simp [buckets, List.countP_cons, c0, c1, c2, c3, c4, c5, c6, c7]
  rcases lt_or_le q (9/1000) with h4 | h4
  · have c0 := pumpB_false_high (5/1000) (6/1000) "0.5% - 0.6%" q (by linarith)
    have c1 := pumpB_false_high (6/1000) (7/1000) "0.6% - 0.7%" q (by linarith)
    have c2 := pumpB_false_high (7/1000) (8/1000) "0.7% - 0.8%" q (by linarith)
    have c3 := pumpB_num_true (8/1000) (9/1000) "0.8% - 0.9%" q h3 h4
    have c4 := pumpB_false_low (9/1000) (.num (10/1000)) "0.9% - 1.0%" q (by linarith)
    have c5 := pumpB_false_low (10/1000) (.num (15/1000)) "1.0% - 1.5%" q (by linarith)
    have c6 := pumpB_false_low (15/1000) (.num (20/1000)) "1.5% - 2.0%" q (by linarith)
    have c7 := pumpB_false_low (20/1000) .inf ("> 2.0%") q (by linarith)
    simp [buckets, List.countP_cons, c0, c1, c2, c3, c4, c5, c6, c7]
  rcases lt_or_le q (10/1000) with h5 | h5
  · have c0 := pumpB_false_high (5/1000) (6/1000) "0.5% - 0.6%" q (by linarith)
    have c1 := pumpB_false_high (6/1000) (7/1000) "0.6% - 0.7%" q (by linarith)
    have c2 := pumpB_false_high (7/1000) (8/1000) "0.7% - 0.8%" q (by linarith)
    have c3 := pumpB_false_high (8/1000) (9/1000) "0.8% - 0.9%" q (by linarith)
    have c4 := pumpB_num_true (9/1000) (10/1000) "0.9% - 1.0%" q h4 h5
    have c5 := pumpB_false_low (10/1000) (.num (15/1000)) "1.0% - 1.5%" q (by linarith)
    have c6 := pumpB_false_low (15/1000) (.num (20/1000)) "1.5% - 2.0%" q (by linarith)
    have c7 := pumpB_false_low (20/1000) .inf ("> 2.0%") q (by linarith)
    simp [buckets, List.countP_cons, c0, c1, c2, c3, c4, c5, c6, c7]
  rcases lt_or_le q (15/1000) with h6 | h6
  · have c0 := pumpB_false_high (5/1000) (6/1000) "0.5% - 0.6%" q (by linarith)
    have c1 := pumpB_false_high (6/1000) (7/1000) "0.6% - 0.7%" q (by linarith)
    have c2 := pumpB_false_high (7/1000) (8/1000) "0.7% - 0.8%" q (by linarith)
    have c3 := pumpB_false_high (8/1000) (9/1000) "0.8% - 0.9%" q (by linarith)
    have c4 := pumpB_false_high (9/1000) (10/1000) "0.9% - 1.0%" q (by linarith)
    have c5 := pumpB_num_true (10/1000) (15/1000) "1.0% - 1.5%" q h5 h6
    have c6 := pumpB_false_low (15/1000) (.num (20/1000)) "1.5% - 2.0%" q (by linarith)
    have c7 := pumpB_false_low (20/1000) .inf ("> 2.0%") q (by linarith)
    simp [buckets, List.countP_cons, c0, c1, c2, c3, c4, c5, c6, c7]
  rcases lt_or_le q (20/1000) with h7 | h7
  · have c0 := pumpB_false_high (5/1000) (6/1000) "0.5% - 0.6%" q (by linarith)
    have c1 := pumpB_false_high (6/1000) (7/1000) "0.6% - 0.7%" q (by linarith)
    have c2 := pumpB_false_high (7/1000) (8/1000) "0.7% - 0.8%" q (by linarith)
    have c3 := pumpB_false_high (8/1000) (9/1000) "0.8% - 0.9%" q (by linarith)
    have c4 := pumpB_false_high (9/1000) (10/1000) "0.9% - 1.0%" q (by linarith)
    have c5 := pumpB_false_high (10/1000) (15/1000) "1.0% - 1.5%" q (by linarith)
    have c6 := pumpB_num_true (15/1000) (20/1000) "1.5% - 2.0%" q h6 h7
    have c7 := pumpB_false_low (20/1000) .inf ("> 2.0%") q (by linarith)
    simp [buckets, List.countP_cons, c0, c1, c2, c3, c4, c5, c6, c7]
  · have c0 := pumpB_false_high (5/1000) (6/1000) "0.5% - 0.6%" q (by linarith)
    have c1 := pumpB_false_high (6/1000) (7/1000) "0.6% - 0.7%" q (by linarith)
    have c2 := pumpB_false_high (7/1000) (8/1000) "0.7% - 0.8%" q (by linarith)
    have c3 := pumpB_false_high (8/1000) (9/1000) "0.8% - 0.9%" q (by linarith)
    have c4 := pumpB_false_high (9/1000) (10/1000) "0.9% - 1.0%" q (by linarith)
    have c5 := pumpB_false_high (10/1000) (15/1000) "1.0% - 1.5%" q (by linarith)
    have c6 := pumpB_false_high (15/1000) (20/1000) "1.5% - 2.0%" q (by linarith)
    have c7 := pumpB_inf_true (20/1000) "> 2.0%" q h7
    simp [buckets, List.countP_cons, c0, c1, c2, c3, c4, c5, c6, c7]

/-- A finite value below the threshold satisfies the pump filter of no
declared bucket. -/
theorem pump_countP_of_lt (q : ℚ) (h : q < 5/1000) :
    buckets.countP (fun b => pumpB b (.num q)) = 0 := by
  have c0 := pumpB_false_low (5/1000) (.num (6/1000)) "0.5% - 0.6%" q (by linarith)
  have c1 := pumpB_false_low (6/1000) (.num (7/1000)) "0.6% - 0.7%" q (by linarith)
  have c2 := pumpB_false_low (7/1000) (.num (8/1000)) "0.7% - 0.8%" q (by linarith)
  have c3 := pumpB_false_low (8/1000) (.num (9/1000)) "0.8% - 0.9%" q (by linarith)
  have c4 := pumpB_false_low (9/1000) (.num (10/1000)) "0.9% - 1.0%" q (by linarith)
  have c5 := pumpB_false_low (10/1000) (.num (15/1000)) "1.0% - 1.5%" q (by linarith)
  have c6 := pumpB_false_low (15/1000) (.num (20/1000)) "1.5% - 2.0%" q (by linarith)
  have c7 := pumpB_false_low (20/1000) .inf ("> 2.0%") q (by linarith)
  simp [buckets, List.countP_cons, c0, c1, c2, c3, c4, c5, c6, c7]

/-- The dump counts over the bucket table coincide with the pump counts of
the negated value. -/
theorem dump_countP_eq (v : PFloat) :
    buckets.countP (fun b => dumpB b v) = buckets.countP (fun b => pumpB b v.neg) := by
  simp only [dumpB_eq_pumpB_neg]

/-- Every event value that is not an infinity satisfies the pump filter or
the dump filter of exactly one bucket in total. -/
theorem bucket_total (v : PFloat) (hev : eventB v = true)
    (h1 : v ≠ PFloat.inf) (h2 : v ≠ PFloat.ninf) :
    buckets.countP (fun b => pumpB b v) + buckets.countP (fun b => dumpB b v) = 1 := by
  cases v with
  | nan => exact absurd hev (by decide)
  | inf => exact absurd rfl h1
  | ninf => exact absurd rfl h2
  | num q =>
    have hq : 5/1000 ≤ |q| := (eventB_num_iff q).mp hev
    rw [dump_countP_eq]
    rcases le_or_lt (5/1000 : ℚ) q with hpos | hneg
    · rw [pump_countP_of_ge q hpos, show (PFloat.num q).neg = .num (-q) from rfl,
        pump_countP_of_lt (-q) (by linarith)]
    · have hqneg : q ≤ -(5/1000) := by
        rcases abs_cases q with ⟨he, h0⟩ | ⟨he, h0⟩ <;> linarith
      rw [pump_countP_of_lt q hneg, show (PFloat.num q).neg = .num (-q) from rfl,
        pump_countP_of_ge (-q) (by linarith)]

/-- Summing a pointwise sum of two counts distributes over the list. -/
theorem sum_map_add {α : Type} (l : List α) (f g : α → ℕ) :
    (l.map fun x => f x + g x).sum = (l.map f).sum + (l.map g).sum := by
  induction l with
  | nil => simp
  | cons a l ih => simp [ih]; omega

/-- The sum of indicator values of a predicate over a list is its
`countP`. -/
theorem sum_map_ite_countP {α : Type} (l : List α) (p : α → Bool) :
    (l.map fun x => if p x then (1 : ℕ) else 0).sum = l.countP p := by
  induction l with
  | nil => simp
  | cons a l ih => rw [List.map_cons, List.sum_cons, List.countP_cons, ih]; omega

/-- Exchanging the two summations: counting matches per bucket and summing
over buckets equals counting matching buckets per element and summing over
elements. -/
theorem countP_sum_swap {α β : Type} (bs : List β) (es : List α) (p : β → α → Bool) :
    (bs.map fun b => es.countP (p b)).sum = (es.map fun e => bs.countP fun b => p b e).sum := by
  induction es with
  | nil => simp
  | cons e es ih =>
    have hstep : (bs.map fun b => (e :: es).countP (p b))
        = bs.map fun b => es.countP (p b) + (if p b e then 1 else 0) := by
      simp [List.countP_cons]
    rw [hstep, sum_map_add, ih, sum_map_ite_countP, List.map_cons, List.sum_cons]
    omega

/-- A sum of ones over a list is the length of the list. -/
theorem sum_map_one {α : Type} (l : List α) (f : α → ℕ) (h : ∀ x ∈ l, f x = 1) :
    (l.map f).sum = l.length := by
  induction l with
  | nil => simp
  | cons a l ih =>
    rw [List.map_cons, List.sum_cons, h a (by simp), ih (fun x hx => h x (by simp [hx]))]
    simp [Nat.add_comm]

/-- Claim C1 (corrected form): for any frame whose return column is
non-empty after the event filter, `analyze_volatility` emits exactly the
eight buckets in declaration order, with no proviso (frames holding
infinities included); and provided additionally that no value of the
return column is an infinity, the total pump count plus the total dump
count equals the number of events. -/
theorem C1_bucket_rows_and_event_sum {ρ : Type} (df : List ρ) (col : ρ → PFloat)
    (hne : df.filter (fun r => eventB (col r)) ≠ []) :
    (analyze_volatility df col).length = 8 ∧
    (analyze_volatility df col).map BucketCount.bucket
      = ["0.5% - 0.6%", "0.6% - 0.7%", "0.7% - 0.8%", "0.8% - 0.9%",
         "0.9% - 1.0%", "1.0% - 1.5%", "1.5% - 2.0%", "> 2.0%"] ∧
    ((∀ r ∈ df, col r ≠ PFloat.inf ∧ col r ≠ PFloat.ninf) →
      sum_pumps (analyze_volatility df col) + sum_dumps (analyze_volatility df col)
        = (df.filter (fun r => eventB (col r))).length) := by
  have hemp : (df.filter (fun r => eventB (col r))).isEmpty = false := by
    rcases h : (df.filter (fun r => eventB (col r))).isEmpty with _ | _
    · rfl
    · exact absurd (List.isEmpty_iff.mp h) hne
  have hana : analyze_volatility df col
      = buckets.map (fun b =>
          { bucket := b.label
            pumps := ((df.filter (fun r => eventB (col r))).filter
              (fun r => pumpB b (col r))).length
            dumps := ((df.filter (fun r => eventB (col r))).filter
              (fun r => dumpB b (col r))).length }) := by
    simp only [analyze_volatility, hemp, Bool.false_eq_true, if_false]
  refine ⟨by rw [hana]; simp [buckets], by rw [hana]; simp [buckets], fun hfin => ?_⟩
  rw [hana]
  unfold sum_pumps sum_dumps
  rw [List.map_map, List.map_map]
  have hp : (buckets.map (BucketCount.pumps ∘ fun b =>
      { bucket := b.label
        pumps := ((df.filter (fun r => eventB (col r))).filter
          (fun r => pumpB b (col r))).length
        dumps := ((df.filter (fun r => eventB (col r))).filter
          (fun r => dumpB b (col r))).length })).sum
      = (buckets.map fun b =>
          (df.filter (fun r => eventB (col r))).countP (fun r => pumpB b (col r))).sum := by
    congr 1
    refine List.map_congr_left (fun b _ => ?_)
    simp [List.countP_eq_length_filter]
  have hd : (buckets.map (BucketCount.dumps ∘ fun b =>
      { bucket := b.label
        pumps := ((df.filter (fun r => eventB (col r))).filter
          (fun r => pumpB b (col r))).length
        dumps := ((df.filter (fun r => eventB (col r))).filter
          (fun r => dumpB b (col r))).length })).sum
      = (buckets.map fun b =>
          (df.filter (fun r => eventB (col r))).countP (fun r => dumpB b (col r))).sum := by
    congr 1
    refine List.map_congr_left (fun b _ => ?_)
    simp [List.countP_eq_length_filter]
  rw [hp, hd, countP_sum_swap buckets _ (fun b r => pumpB b (col r)),
    countP_sum_swap buckets _ (fun b r => dumpB b (col r)), ← sum_map_add]
  refine sum_map_one _ _ (fun r hr => ?_)
  have hr' := List.mem_filter.mp hr
  exact bucket_total (col r) hr'.2 (hfin r hr'.1).1 (hfin r hr'.1).2

/-- Counterexample to claim C1 as stated: for the frame whose single return
value is positive infinity (as produced by `pct_change` at a zero reference
close), the event filter keeps the row, yet every bucket counts zero pumps
and zero dumps, so the counts do not sum to the number of events. -/
theorem C1_counterexample :
    ([PFloat.inf].filter (fun v => eventB v)).length = 1 ∧
    sum_pumps (analyze_volatility [PFloat.inf] id)
      + sum_dumps (analyze_volatility [PFloat.inf] id) = 0 := by
  constructor
  · decide
  · decide

/-- Witness for the corrected claim C1 at a concrete one-event frame. -/
theorem C1_witness :
    (analyze_volatility [PFloat.num (5/1000)] id).length = 8 ∧
    (analyze_volatility [PFloat.num (5/1000)] id).map BucketCount.bucket
      = ["0.5% - 0.6%", "0.6% - 0.7%", "0.7% - 0.8%", "0.8% - 0.9%",
         "0.9% - 1.0%", "1.0% - 1.5%", "1.5% - 2.0%", "> 2.0%"] ∧
    sum_pumps (analyze_volatility [PFloat.num (5/1000)] id)
      + sum_dumps (analyze_volatility [PFloat.num (5/1000)] id)
      = ([PFloat.num (5/1000)].filter (fun r => eventB (id r))).length := by
  have h := C1_bucket_rows_and_event_sum [PFloat.num (5/1000)] id
    (by norm_num [List.filter_cons, eventB, PFloat.abs, PFloat.geb, PFloat.leb, abs_of_pos])
  exact ⟨h.1, h.2.1, h.2.2 (by decide)⟩

/-- A finite value satisfying the pump filter of some declared bucket is at
or above the 0.005 threshold. -/
theorem pump_any_ge (q : ℚ)
    (h : buckets.any (fun b => pumpB b (.num q)) = true) : 5/1000 ≤ q := by
  rcases List.any_eq_true.mp h with ⟨b, hb, hpb⟩
  fin_cases hb <;>
    simp only [pumpB, PFloat.geb, PFloat.leb, PFloat.ltb, Bool.and_eq_true,
      decide_eq_true_eq, and_true] at hpb <;>
    first
      | linarith [hpb.1]
      | linarith [hpb]

/-- A finite value satisfying the dump filter of some declared bucket is at
or below minus the 0.005 threshold. -/
theorem dump_any_le (q : ℚ)
    (h : buckets.any (fun b => dumpB b (.num q)) = true) : q ≤ -(5/1000) := by
  simp only [dumpB_eq_pumpB_neg, PFloat.neg] at h
  have := pump_any_ge (-q) h
  linarith

/-- Claim C9 (confirmed): any value of the return column satisfies the pump
filter of at most one bucket and the dump filter of at most one bucket, and
never satisfies a pump filter and a dump filter simultaneously; hence no
event row of `analyze_volatility` is counted twice across the output. -/
theorem C9_no_double_count (v : PFloat) :
    buckets.countP (fun b => pumpB b v) ≤ 1 ∧
    buckets.countP (fun b => dumpB b v) ≤ 1 ∧
    ¬(buckets.any (fun b => pumpB b v) = true ∧
      buckets.any (fun b => dumpB b v) = true) := by
  cases v with
  | nan => exact ⟨by decide, by decide, by decide⟩
  | inf => exact ⟨by decide, by decide, by decide⟩
  | ninf => exact ⟨by decide, by decide, by decide⟩
  | num q =>
    refine ⟨?_, ?_, ?_⟩
    · rcases le_or_lt (5/1000 : ℚ) q with h | h
      · exact le_of_eq (pump_countP_of_ge q h)
      · rw [pump_countP_of_lt q h]; omega
    · rw [dump_countP_eq, show (PFloat.num q).neg = .num (-q) from rfl]
      rcases le_or_lt (5/1000 : ℚ) (-q) with h | h
      · exact le_of_eq (pump_countP_of_ge (-q) h)
      · rw [pump_countP_of_lt (-q) h]; omega
    · rintro ⟨hp, hd⟩
      have h1 := pump_any_ge q hp
      have h2 := dump_any_le q hd
      linarith

/-- Counterexample to claim C4 as stated: there is no declared bucket and
no negative event return for which the dump filter and the pump filter of
the absolute value disagree; the claimed boundary asymmetry does not
exist. -/
theorem C4_counterexample :
    ¬ ∃ b ∈ buckets, ∃ q : ℚ, q < 0 ∧ 5/1000 ≤ |q| ∧
        dumpB b (.num q) ≠ pumpB b (.num |q|) := by
  rintro ⟨b, hb, q, hq, hth, hne⟩
  apply hne
  rw [dumpB_eq_pumpB_neg, show (PFloat.num q).neg = .num (-q) from rfl, abs_of_neg hq]

/-- Corrected claim C4: the dump test of every bucket is the exact mirror
of its pump test, on all values via negation, and in particular on every
negative return via the absolute value; the boundary inclusivity of the
two comparisons agrees. -/
theorem C4_mirror :
    (∀ (b : Bucket) (v : PFloat), dumpB b v = pumpB b v.neg) ∧
    (∀ (b : Bucket) (q : ℚ), q < 0 → dumpB b (.num q) = pumpB b (.num |q|)) := by
  refine ⟨dumpB_eq_pumpB_neg, fun b q hq => ?_⟩
  rw [dumpB_eq_pumpB_neg, show (PFloat.num q).neg = .num (-q) from rfl, abs_of_neg hq]

/-- Witness for the corrected claim C4 at the first bucket and the return
minus 0.0055. -/
theorem C4_witness :
    dumpB ⟨5/1000, .num (6/1000), "0.5% - 0.6%"⟩ (.num (-(11/2000)))
      = pumpB ⟨5/1000, .num (6/1000), "0.5% - 0.6%"⟩ (.num |(-(11/2000) : ℚ)|) :=
  C4_mirror.2 ⟨5/1000, .num (6/1000), "0.5% - 0.6%"⟩ (-(11/2000)) (by norm_num)

/-- Inversion of a successful `process_data` run: the rows are the input
candles sorted by timestamp and the three return columns are `pct_change`
of the sorted close column at the resolution-scaled window sizes. -/
theorem process_data_some (candles : List Candle) (res : String) (df : DF)
    (h : process_data candles res = some df) :
    df.rows = List.insertionSort candle_le candles ∧
    df.ret_5m = pct_change (5 * factorOf res) (df.rows.map Candle.close) ∧
    df.ret_10m = pct_change (10 * factorOf res) (df.rows.map Candle.close) ∧
    df.ret_15m = pct_change (15 * factorOf res) (df.rows.map Candle.close) := by
  rcases he : candles.isEmpty with _ | _
  · simp only [process_data, he, Bool.false_eq_true, if_false, Option.some.injEq] at h
    subst h
    exact ⟨rfl, rfl, rfl, rfl⟩
  · simp [process_data, he] at h

/-- Reading the defined part of a `pct_change` column: within bounds, the
column holds NaN before `periods` and the windowed return after. -/
theorem pct_change_getD (n : ℕ) (cs : List ℚ) (i : ℕ) (h : i < cs.length) :
    (pct_change n cs).getD i .nan
      = if i < n then .nan else ret1 (cs.getD i 0) (cs.getD (i - n) 0) := by
  unfold pct_change
  rw [List.getD_eq_getElem?_getD, List.getElem?_map, List.getElem?_range h]
  rfl

/-- Counterexample to claim C3 as stated: the built bar series can retain
duplicate timestamps, since `process_data` sorts but never deduplicates;
two records at timestamp 0 both survive. -/
theorem C3_counterexample :
    ¬ ∀ (candles : List Candle) (df : DF),
        process_data candles ("1m") = some df → (df.rows.map Candle.time).Nodup := by
  intro hall
  have h := hall [⟨0, 1⟩, ⟨0, 2⟩]
      ⟨[⟨0, 1⟩, ⟨0, 2⟩], [.nan, .nan], [.nan, .nan], [.nan, .nan]⟩ (by decide)
  exact absurd h (by decide)

/-- Corrected claim C3: for every non-empty collection of raw bar records,
the built series is sorted ascending by timestamp and is a permutation of
the input records: every record is retained, duplicate timestamps
included, and the result is a deterministic function of the input. -/
theorem C3_sorted_all_retained (candles : List Candle) (res : String)
    (h : candles ≠ []) :
    ∃ df, process_data candles res = some df ∧
      List.Sorted candle_le df.rows ∧ List.Perm df.rows candles := by
  have he : candles.isEmpty = false := by
    rcases candles with _ | ⟨a, l⟩
    · exact absurd rfl h
    · rfl
  refine ⟨{ rows := List.insertionSort candle_le candles
            ret_5m := pct_change (5 * factorOf res)
              ((List.insertionSort candle_le candles).map Candle.close)
            ret_10m := pct_change (10 * factorOf res)
              ((List.insertionSort candle_le candles).map Candle.close)
            ret_15m := pct_change (15 * factorOf res)
              ((List.insertionSort candle_le candles).map Candle.close) }, ?_, ?_, ?_⟩
  · simp only [process_data, he, Bool.false_eq_true, if_false]
  · exact List.sorted_insertionSort candle_le candles
  · exact List.perm_insertionSort candle_le candles

/-- Witness for the corrected claim C3 on a concrete out-of-order input. -/
theorem C3_witness :
    ∃ df, process_data [⟨5, (2:ℚ)⟩, ⟨1, 3⟩] ("1m") = some df ∧
      List.Sorted candle_le df.rows ∧ List.Perm df.rows [⟨5, (2:ℚ)⟩, ⟨1, 3⟩] :=
  C3_sorted_all_retained [⟨5, 2⟩, ⟨1, 3⟩] ("1m") (by decide)

/-- Claim C6 (confirmed): the bars-per-minute factor is 60 for resolution
"1s" and 1 for "1m" and for every unrecognized resolution string; each
N-minute return column of `process_data` is `pct_change` with
`window_bars = N * factor` (300 bars for a 5-minute window at "1s", 5 bars
at "1m"), and a defined position of `pct_change n` references the close
exactly `n` positions earlier. -/
theorem C6_window_scaling :
    factorOf ("1s") = 60 ∧ factorOf ("1m") = 1 ∧
    (∀ res : String, res ≠ "1s" → factorOf res = 1) ∧
    5 * factorOf ("1s") = 300 ∧ 5 * factorOf ("1m") = 5 ∧
    (∀ (candles : List Candle) (res : String) (df : DF),
      process_data candles res = some df →
        df.ret_5m = pct_change (5 * factorOf res) (df.rows.map Candle.close) ∧
        df.ret_10m = pct_change (10 * factorOf res) (df.rows.map Candle.close) ∧
        df.ret_15m = pct_change (15 * factorOf res) (df.rows.map Candle.close)) ∧
    (∀ (n : ℕ) (cs : List ℚ) (i : ℕ), n ≤ i → i < cs.length →
      (pct_change n cs).getD i .nan = ret1 (cs.getD i 0) (cs.getD (i - n) 0)) := by
  refine ⟨by decide, by decide, ?_, by decide, by decide, ?_, ?_⟩
  · intro res h
    unfold factorOf
    by_cases h1 : res = "1m"
    · simp [h1]
    · simp [h1, h]
  · intro candles res df h
    exact (process_data_some candles res df h).2
  · intro n cs i h1 h2
    rw [pct_change_getD n cs i h2, if_neg (Nat.not_lt.mpr h1)]

/-- Witness for claim C6: the unrecognized resolution "2h" falls back to
factor 1, a concrete one-candle run at "1m" satisfies the column equations,
and a concrete defined return position references the close one position
earlier. -/
theorem C6_witness :
    factorOf ("2h") = 1 ∧
    (DF.ret_5m ⟨[⟨0, (1:ℚ)⟩], [.nan], [.nan], [.nan]⟩
        = pct_change (5 * factorOf ("1m"))
            ((DF.rows ⟨[⟨0, (1:ℚ)⟩], [.nan], [.nan], [.nan]⟩).map Candle.close) ∧
      DF.ret_10m ⟨[⟨0, (1:ℚ)⟩], [.nan], [.nan], [.nan]⟩
        = pct_change (10 * factorOf ("1m"))
            ((DF.rows ⟨[⟨0, (1:ℚ)⟩], [.nan], [.nan], [.nan]⟩).map Candle.close) ∧
      DF.ret_15m ⟨[⟨0, (1:ℚ)⟩], [.nan], [.nan], [.nan]⟩
        = pct_change (15 * factorOf ("1m"))
            ((DF.rows ⟨[⟨0, (1:ℚ)⟩], [.nan], [.nan], [.nan]⟩).map Candle.close)) ∧
    (pct_change 1 [0, (1:ℚ)]).getD 1 .nan
      = ret1 ([0, (1:ℚ)].getD 1 0) ([0, (1:ℚ)].getD 0 0) :=
  ⟨C6_window_scaling.2.2.1 ("2h") (by decide),
   C6_window_scaling.2.2.2.2.2.1 [⟨0, 1⟩] ("1m")
     ⟨[⟨0, 1⟩], [.nan], [.nan], [.nan]⟩ (by decide),
   C6_window_scaling.2.2.2.2.2.2 1 [0, 1] 1 (by decide) (by decide)⟩

/-- Claim C8 (confirmed): an empty raw-bar input yields the distinct
`none` result ("no data"), while a successful run whose bar count is
below `window_bars` yields an all-NaN 5-minute return column of the same
length and an empty result table from `analyze_volatility` ("no events");
`none` is distinguishable from every `some` result, and both outcomes are
values, not exceptions. -/
theorem C8_no_data_vs_no_events :
    (∀ res : String, process_data [] res = none) ∧
    (∀ (candles : List Candle) (res : String) (df : DF),
      process_data candles res = some df →
      candles.length < 5 * factorOf res →
        (∀ v ∈ df.ret_5m, v = PFloat.nan) ∧
        df.ret_5m.length = candles.length ∧
        analyze_volatility df.ret_5m id = []) ∧
    (∀ df : DF, (none : Option DF) ≠ some df) := by
  refine ⟨fun res => rfl, ?_, fun df h => by cases h⟩
  intro candles res df h hlen
  obtain ⟨hrows, h5, _, _⟩ := process_data_some candles res df h
  have hclen : (df.rows.map Candle.close).length = candles.length := by
    rw [hrows, List.length_map]
    exact (List.perm_insertionSort candle_le candles).length_eq
  have hnan : ∀ v ∈ df.ret_5m, v = PFloat.nan := by
    intro v hv
    rw [h5] at hv
    unfold pct_change at hv
    rcases List.mem_map.mp hv with ⟨i, hi, rfl⟩
    have hilt : i < candles.length := by
      rw [← hclen]; exact List.mem_range.mp hi
    rw [if_pos (by omega : i < 5 * factorOf res)]
  refine ⟨hnan, ?_, ?_⟩
  · rw [h5]
    unfold pct_change
    rw [List.length_map, List.length_range, hclen]
  · have hfil : df.ret_5m.filter (fun r => eventB (id r)) = [] := by
      rw [List.filter_eq_nil_iff]
      intro a ha
      rw [hnan a ha]
      decide
    simp only [analyze_volatility, hfil, List.isEmpty_nil, if_true]

/-- Witness for claim C8 at a single candle processed at "1m", where one
bar is fewer than the five-bar window. -/
theorem C8_witness :
    (∀ v ∈ ([PFloat.nan] : List PFloat), v = PFloat.nan) ∧
    ([PFloat.nan] : List PFloat).length = 1 ∧
    analyze_volatility ([PFloat.nan] : List PFloat) id = [] :=
  C8_no_data_vs_no_events.2.1 [⟨0, 1⟩] ("1m")
    ⟨[⟨0, 1⟩], [.nan], [.nan], [.nan]⟩ (by decide) (by decide)

/-- Counterexample to claim C2 as stated: with five zero closes followed by
close 1 at "1m", the 5-minute return at position 5 divides by the zero
reference close and becomes positive infinity, which is not "no value" and
which the event filter selects. -/
theorem C2_counterexample :
    Option.map (fun df => df.ret_5m.getD 5 .nan)
        (process_data [⟨0, 0⟩, ⟨60, 0⟩, ⟨120, 0⟩, ⟨180, 0⟩, ⟨240, 0⟩, ⟨300, 1⟩] ("1m"))
      = some PFloat.inf ∧
    PFloat.inf ≠ PFloat.nan ∧
    eventB PFloat.inf = true := by
  refine ⟨?_, by decide, by decide⟩
  have hrange : List.range 6 = [0, 1, 2, 3, 4, 5] := rfl
  norm_num [process_data, factorOf, pct_change, ret1, hrange, List.getD, candle_le]

/-- Corrected claim C2: at a defined position whose reference close is
zero, the return is NaN ("no value", not an event) only when the current
close is also zero; when the current close is nonzero the return is a
signed infinity, and an infinite return is selected by the event filter.
The rest of the series is still computed: the return column always has the
length of the close column, and NaN is never selected. -/
theorem C2_zero_close_behavior :
    (∀ (n : ℕ) (cs : List ℚ) (i : ℕ), n ≤ i → i < cs.length → cs.getD (i - n) 0 = 0 →
      (pct_change n cs).getD i .nan
        = (if cs.getD i 0 = 0 then PFloat.nan
           else if 0 < cs.getD i 0 then PFloat.inf else PFloat.ninf)) ∧
    (∀ (n : ℕ) (cs : List ℚ), (pct_change n cs).length = cs.length) ∧
    eventB PFloat.nan = false ∧ eventB PFloat.inf = true ∧ eventB PFloat.ninf = true := by
  refine ⟨?_, ?_, by decide, by decide, by decide⟩
  · intro n cs i h1 h2 h0
    rw [pct_change_getD n cs i h2, if_neg (Nat.not_lt.mpr h1)]
    unfold ret1
    rw [h0]
    simp
  · intro n cs
    unfold pct_change
    rw [List.length_map, List.length_range]

/-- Witness for the corrected claim C2 on the two-close series 0, 1 with a
one-bar window. -/
theorem C2_witness :
    (pct_change 1 [0, (1:ℚ)]).getD 1 .nan
      = (if [0, (1:ℚ)].getD 1 0 = 0 then PFloat.nan
         else if 0 < [0, (1:ℚ)].getD 1 0 then PFloat.inf else PFloat.ninf) :=
  C2_zero_close_behavior.1 1 [0, 1] 1 (by decide) (by decide) (by decide)

/-- Claim C7 (confirmed): for the six closes 100 to 105 at "1m" resolution,
the 5-minute return column is NaN ("no value") at positions 0 through 4 and
(105 - 100) / 100 = 0.05 at position 5. -/
theorem C7_window_example :
    Option.map DF.ret_5m
        (process_data [⟨0, 100⟩, ⟨60, 101⟩, ⟨120, 102⟩, ⟨180, 103⟩, ⟨240, 104⟩, ⟨300, 105⟩]
          ("1m"))
      = some [.nan, .nan, .nan, .nan, .nan, .num (1/20)] := by
  have hrange : List.range 6 = [0, 1, 2, 3, 4, 5] := rfl
  norm_num [process_data, factorOf, pct_change, ret1, hrange, List.getD, candle_le]

/-- Claim C5 (confirmed): a return of absolute value exactly 0.005 passes
the inclusive event threshold (counted once, in the first bucket, as a pump
when positive and a dump when negative), and a return of exactly 0.006 is
counted in the bucket labelled 0.6 to 0.7 percent, not in the bucket
labelled 0.5 to 0.6 percent. -/
theorem C5_threshold_and_bucket_edges :
    (analyze_volatility [PFloat.num (5/1000)] id).map
        (fun r => (r.bucket, r.pumps, r.dumps))
      = [("0.5% - 0.6%", 1, 0), ("0.6% - 0.7%", 0, 0), ("0.7% - 0.8%", 0, 0),
         ("0.8% - 0.9%", 0, 0), ("0.9% - 1.0%", 0, 0), ("1.0% - 1.5%", 0, 0),
         ("1.5% - 2.0%", 0, 0), ("> 2.0%", 0, 0)] ∧
    (analyze_volatility [PFloat.num (-(5/1000))] id).map
        (fun r => (r.bucket, r.pumps, r.dumps))
      = [("0.5% - 0.6%", 0, 1), ("0.6% - 0.7%", 0, 0), ("0.7% - 0.8%", 0, 0),
         ("0.8% - 0.9%", 0, 0), ("0.9% - 1.0%", 0, 0), ("1.0% - 1.5%", 0, 0),
         ("1.5% - 2.0%", 0, 0), ("> 2.0%", 0, 0)] ∧
    (analyze_volatility [PFloat.num (6/1000)] id).map
        (fun r => (r.bucket, r.pumps, r.dumps))
      = [("0.5% - 0.6%", 0, 0), ("0.6% - 0.7%", 1, 0), ("0.7% - 0.8%", 0, 0),
         ("0.8% - 0.9%", 0, 0), ("0.9% - 1.0%", 0, 0), ("1.0% - 1.5%", 0, 0),
         ("1.5% - 2.0%", 0, 0), ("> 2.0%", 0, 0)] := by
  refine ⟨?_, ?_, ?_⟩ <;>
    norm_num [analyze_volatility, buckets, eventB, pumpB, dumpB, PFloat.abs, PFloat.geb,
      PFloat.gtb, PFloat.leb, PFloat.ltb, PFloat.neg, abs_of_pos, abs_of_nonpos, List.filter]

/-- Claim C10 (confirmed): the state-threaded run of `analyze_volatility`
returns the input frame unchanged alongside the same result table; the
pandas operations it performs (boolean-mask indexing, `.copy()`, `len`,
`.empty`) never write to the argument frame. -/
theorem C10_frame_unchanged {ρ : Type} (df : List ρ) (col : ρ → PFloat) :
    (analyze_volatility_state df col).2 = df ∧
    (analyze_volatility_state df col).1 = analyze_volatility df col := by
  unfold analyze_volatility_state analyze_volatility
  by_cases h : (df.filter (fun r => eventB (col r))).isEmpty <;> simp [h]
